import Mathlib

/-!
Shallow embedding of `twipper/premium.py` (functions `search_tweets` and
`wrapper_premium_user_search`) and proofs about the claims of the
specification.

Modelling conventions:
* `api` is a `Bool`: `true` models a non-null `oauth2.Client` instance,
  `false` models anything failing `if not api or not isinstance(api, oauth2.Client)`.
* Python strings are `String`; Python's truthiness test `if not s` on a string
  is `s = ""`.
* `page_count` is an `Int`; Python's `if not page_count or not isinstance(page_count, int)`
  rejects exactly `0` for an int-typed value.
* `language=None` is `Option.none`; `if language:` is true iff the value is
  `some l` with `l ≠ ""`.  The check
  `if language and not isinstance(language, str)` can never fire for a
  `None`-or-`str` typed value, so it contributes no branch.
* The external world is an oracle `Env`: the outcome of
  `twipper.utils.available_languages` (a function of this repository that is
  not part of the analysed source; per the spec it is an external collaborator
  performing its own network call, whose failure modes are wrapped into one
  error) and the parsed server response to the n-th search POST issued by the
  call.  `requests.post` / `response.json()` are modelled as reading that
  oracle; the URL and headers are built from the arguments but carry no
  behaviour that any claim concerns, so they are not recorded.
* Exceptions become an `Outcome` sum; the run also records whether the
  language lookup was invoked and how many search POSTs were issued, so that
  frame claims ("no network call is made") can be stated.
-/

namespace Twipper

/-- A tweet record is opaque JSON to this code; we keep it as a type
parameter. -/
structure Response (α : Type) where
  status : Nat
  results : Option (List α)
  next : Option String
  deriving DecidableEq

/-- Oracle for the external world of one call: the outcome of
`available_languages(api)` and the (already JSON-parsed) response to the n-th
search POST (`n = 0` is the first page). -/
structure Env (α : Type) where
  lookup : Except Unit (List String)
  pages : Nat → Response α

/-- The observable termination of one call, mirroring the exceptions of the
source.  `valueError` keeps the message (the validation messages differ
between branches); the other kinds carry none because no claim distinguishes
their texts. -/
inductive Outcome (α : Type) where
  /-- `raise ValueError(msg)` -/
  | valueError (msg : String)
  /-- `raise RuntimeError('`available_languages` function failed.')` -/
  | runtimeError
  /-- `raise ConnectionError(...)` on a non-200 first page -/
  | connectionError
  /-- `raise IndexError('no tweets could be retrieved.')` -/
  | indexError
  /-- `return tweets` -/
  | ok (tweets : List α)
  deriving DecidableEq

/-- Result of one call together with its network trace: whether
`available_languages` was called, and how many search POSTs were issued. -/
structure RunResult (α : Type) where
  outcome : Outcome α
  lookupCalled : Bool
  searchCalls : Nat
  deriving DecidableEq

/-! ### Date parsing: `datetime.datetime.strptime(s, '%Y%m%d%H%M')` -/

/-- Parsed instant, field by field. -/
structure DateTime where
  year : Nat
  month : Nat
  day : Nat
  hour : Nat
  minute : Nat
  deriving DecidableEq

def isLeap (y : Nat) : Bool :=
  y % 4 == 0 && (y % 100 != 0 || y % 400 == 0)

def daysInMonth (y m : Nat) : Nat :=
  if m = 2 then (if isLeap y then 29 else 28)
  else if m = 4 ∨ m = 6 ∨ m = 9 ∨ m = 11 then 30
  else 31

def digitsVal (cs : List Char) : Nat :=
  cs.foldl (fun a c => a * 10 + (c.toNat - 48)) 0

/-- `datetime.datetime.strptime(s, '%Y%m%d%H%M')` for the 12-digit strings the
format names: 4-digit year (`datetime` requires year ≥ 1), 2-digit month, day,
hour, minute, validated against the calendar (leap years included).  Returns
`none` where CPython raises `ValueError`. -/
def strptime12 (s : String) : Option DateTime :=
  let cs := s.toList
  if cs.length = 12 ∧ cs.all Char.isDigit then
    let y := digitsVal (cs.take 4)
    let mo := digitsVal ((cs.drop 4).take 2)
    let d := digitsVal ((cs.drop 6).take 2)
    let h := digitsVal ((cs.drop 8).take 2)
    let mi := digitsVal (cs.drop 10)
    if 1 ≤ y ∧ 1 ≤ mo ∧ mo ≤ 12 ∧ 1 ≤ d ∧ d ≤ daysInMonth y mo ∧
        h ≤ 23 ∧ mi ≤ 59 then
      some ⟨y, mo, d, h, mi⟩
    else none
  else none

/-- Chronological order on parsed instants: with every field below 100 this
base-100 encoding compares exactly as `datetime.datetime` comparison does. -/
def DateTime.encode (t : DateTime) : Nat :=
  (((t.year * 100 + t.month) * 100 + t.day) * 100 + t.hour) * 100 + t.minute

/-! ### Input validation (lines 45–86 resp. 205–246 of `premium.py`) -/

/-- The validation chain of `search_tweets`, in source order; `some msg` is
`raise ValueError(msg)`, `none` means validation passed. -/
def validateSearch (api : Bool) (oauth_token plan label query : String)
    (page_count : Int) (from_date to_date : String)
    (language : Option String) : Option String :=
  if api = false then some "specified api is not valid!"
  else if oauth_token = "" then some "oauth_token is not valid!"
  else if plan = "" then some "plan must be a `str`!"
  else if label = "" then some "label must be a `str`!"
  else if query = "" then some "query must be a `str`"
  else if page_count = 0 then some "page_count must be an `int`!"
  else if from_date = "" then some "from_date must be a `bool`!"
  else if (strptime12 from_date).isNone then
    some "incorrect date format, it should be `yyyymmddhhmm`"
  else if to_date = "" then some "to_date must be a `bool`!"
  else if (strptime12 to_date).isNone then
    some "incorrect date format, it should be `yyyymmddhhmm`"
  else
    match strptime12 from_date, strptime12 to_date with
    | some s, some e =>
      if e.encode ≤ s.encode then
        some "incorrect dates, as from_date should be earlier than to_date."
      else none
    | _, _ => none

/-- The validation chain of `wrapper_premium_user_search`; identical to
`validateSearch` except that the fifth check is on `screen_name`. -/
def validateWrapper (api : Bool) (oauth_token plan label screen_name : String)
    (page_count : Int) (from_date to_date : String)
    (language : Option String) : Option String :=
  if api = false then some "specified api is not valid!"
  else if oauth_token = "" then some "oauth_token is not valid!"
  else if plan = "" then some "plan must be a `str`!"
  else if label = "" then some "label must be a `str`!"
  else if screen_name = "" then some "screen_name must be a `str`"
  else if page_count = 0 then some "page_count must be an `int`!"
  else if from_date = "" then some "from_date must be a `bool`!"
  else if (strptime12 from_date).isNone then
    some "incorrect date format, it should be `yyyymmddhhmm`"
  else if to_date = "" then some "to_date must be a `bool`!"
  else if (strptime12 to_date).isNone then
    some "incorrect date format, it should be `yyyymmddhhmm`"
  else
    match strptime12 from_date, strptime12 to_date with
    | some s, some e =>
      if e.encode ≤ s.encode then
        some "incorrect dates, as from_date should be earlier than to_date."
      else none
    | _, _ => none

/-! ### Language filter (lines 100–104 resp. 262–266) -/

/-- Python's `if language:` for a `None`-or-`str` value. -/
def langTruthy : Option String → Bool
  | none => false
  | some l => l ≠ ""

/-- Lines 100–104: if `language` is truthy, require membership in the fetched
list and append `' lang:' + language` to the query; otherwise leave the query
unchanged.  `.error` is the `raise ValueError(...)` branch. -/
def applyLanguage (query : String) (language : Option String)
    (languages : List String) : Except String String :=
  if langTruthy language then
    if language.getD "" ∈ languages then
      .ok (query ++ " lang:" ++ language.getD "")
    else .error "the introduced language does not exist."
  else .ok query

/-! ### Pagination loop (lines 138–164 resp. 300–326) -/

/-- The `for _ in range(page_count - 1)` continuation loop.  `fuel` is the
number of remaining iterations, `calls` the number of search POSTs issued so
far (which indexes the next response in the oracle), `next_page` the token the
next request body would carry.  Returns the aggregate and the total number of
search POSTs issued. -/
def followLoop (pages : Nat → Response α) :
    Nat → Nat → String → List α → List α × Nat
  | 0, calls, _, tweets => (tweets, calls)
  | fuel + 1, calls, _next_page, tweets =>
    let response := pages calls
    if response.status ≠ 200 then (tweets, calls + 1)
    else
      match response.results with
      | none => (tweets, calls + 1)
      | some rs =>
        match response.next with
        | some np => followLoop pages fuel (calls + 1) np (tweets ++ rs)
        | none => (tweets ++ rs, calls + 1)

/-- Lines 106–169 of `search_tweets`: first page, continuation loop, and
finalization.  This block is duplicated verbatim at lines 268–331 of
`wrapper_premium_user_search`, so it is embedded once.  The JSON body fields
(`query`, `fromDate`, `toDate`, `maxResults: 100`, and `next` on continuation
pages) are built from values fixed before this point; in the oracle model the
response depends only on the call index, so only `pages` and the page budget
are parameters here. -/
def paginate (pages : Nat → Response α) (page_count : Int) : RunResult α :=
  let response := pages 0
  if response.status ≠ 200 then ⟨.connectionError, true, 1⟩
  else
    match response.results with
    | none => ⟨.indexError, true, 1⟩
    | some rs =>
      let tweets : List α := [] ++ rs
      match response.next with
      | none =>
        if tweets.length > 0 then ⟨.ok tweets, true, 1⟩
        else ⟨.indexError, true, 1⟩
      | some next_page =>
        let out := followLoop pages (page_count - 1).toNat 1
          next_page tweets
        if out.1.length > 0 then ⟨.ok out.1, true, out.2⟩
        else ⟨.indexError, true, out.2⟩

/-! ### The two public operations -/

/-- `twipper.premium.search_tweets` (lines 15–169). -/
def search_tweets (env : Env α) (api : Bool)
    (oauth_token plan label query : String) (page_count : Int)
    (from_date to_date : String) (language : Option String := none) :
    RunResult α :=
  match validateSearch api oauth_token plan label query page_count
      from_date to_date language with
  | some msg => ⟨.valueError msg, false, 0⟩
  | none =>
    match env.lookup with
    | .error _ => ⟨.runtimeError, true, 0⟩
    | .ok languages =>
      match applyLanguage query language languages with
      | .error msg => ⟨.valueError msg, true, 0⟩
      | .ok _query => paginate env.pages page_count

/-- `twipper.premium.wrapper_premium_user_search` (lines 172–331): same code
with the query synthesized as `'from:' + screen_name` (line 250). -/
def wrapper_premium_user_search (env : Env α) (api : Bool)
    (oauth_token plan label screen_name : String) (page_count : Int)
    (from_date to_date : String) (language : Option String := none) :
    RunResult α :=
  match validateWrapper api oauth_token plan label screen_name page_count
      from_date to_date language with
  | some msg => ⟨.valueError msg, false, 0⟩
  | none =>
    let query := "from:" ++ screen_name
    match env.lookup with
    | .error _ => ⟨.runtimeError, true, 0⟩
    | .ok languages =>
      match applyLanguage query language languages with
      | .error msg => ⟨.valueError msg, true, 0⟩
      | .ok _query => paginate env.pages page_count

/-- The language filter does not reject: either no (truthy) language was
supplied, or the supplied one is in the fetched list.  This is exactly the
condition under which lines 100–104 fall through to the search request. -/
def LanguageOk (language : Option String) (languages : List String) : Prop :=
  langTruthy language = true → language.getD "" ∈ languages

instance (language : Option String) (languages : List String) :
    Decidable (LanguageOk language languages) := by
  unfold LanguageOk
  infer_instance

/-! ### Concrete oracles and arguments used for witnesses and counterexamples -/

/-- A well-formed `yyyymmddhhmm` date, 2018-01-01 00:00. -/
def dA : String := "201801010000"

/-- A well-formed `yyyymmddhhmm` date, 2018-01-02 00:00. -/
def dB : String := "201801020000"

/-- Lookup succeeds; every search POST answers 200 with one item and no
continuation token. -/
def envSimple : Env Nat := ⟨.ok ["en", "es"], fun _ => ⟨200, some [1], none⟩⟩

/-- Lookup succeeds; every search POST answers 200 with one item and no
continuation token (used for the author-search comparison). -/
def envFrom : Env Nat := ⟨.ok [], fun _ => ⟨200, some [7], none⟩⟩

/-- First page: 200 with two items and a continuation token; every
continuation POST fails with 500. -/
def envGrace : Env Nat :=
  ⟨.ok [], fun n => if n = 0 then ⟨200, some [5, 6], some "tok"⟩
    else ⟨500, none, none⟩⟩

/-- Every search POST fails with 503. -/
def envDown : Env Nat := ⟨.ok [], fun _ => ⟨503, none, none⟩⟩

/-- Pages 0 and 1: 200 with 100 items and a continuation token; page 2:
200 with 100 items and no token. -/
def envPages3 : Env Nat :=
  ⟨.ok [], fun n =>
    if n = 0 then ⟨200, some (List.replicate 100 0), some "t0"⟩
    else if n = 1 then ⟨200, some (List.replicate 100 1), some "t1"⟩
    else ⟨200, some (List.replicate 100 2), none⟩⟩

/-! ### Helper lemmas -/

theorem from_append_ne_empty (s : String) : ("from:" ++ s) ≠ "" := by
  intro h
  have hlen := congrArg String.length h
  simp [String.length_append] at hlen
  exact absurd hlen.1 (by decide)

theorem applyLanguage_ok (q : String) (language : Option String)
    (languages : List String) (h : LanguageOk language languages) :
    ∃ q2, applyLanguage q language languages = Except.ok q2 := by
  unfold applyLanguage
  cases ht : langTruthy language with
  | false => exact ⟨q, by simp⟩
  | true =>
    refine ⟨q ++ " lang:" ++ language.getD "", ?_⟩
    simp [h ht]

theorem validateWrapper_eq_validateSearch (api : Bool)
    (oauth_token plan label screen_name : String) (page_count : Int)
    (from_date to_date : String) (language : Option String)
    (hsn : screen_name ≠ "") :
    validateWrapper api oauth_token plan label screen_name page_count
        from_date to_date language
      = validateSearch api oauth_token plan label ("from:" ++ screen_name)
        page_count from_date to_date language := by
  unfold validateWrapper validateSearch
  rw [if_neg hsn, if_neg (from_append_ne_empty screen_name)]

theorem search_tweets_eq_paginate (env : Env α) (api : Bool)
    (oauth_token plan label query : String) (page_count : Int)
    (from_date to_date : String) (language : Option String)
    (langs : List String)
    (hv : validateSearch api oauth_token plan label query page_count
        from_date to_date language = none)
    (hl : env.lookup = .ok langs)
    (hOk : LanguageOk language langs) :
    search_tweets env api oauth_token plan label query page_count
        from_date to_date language = paginate env.pages page_count := by
  obtain ⟨q2, ha⟩ := applyLanguage_ok query language langs hOk
  unfold search_tweets
  simp only [hv, hl, ha]

theorem wrapper_eq_paginate (env : Env α) (api : Bool)
    (oauth_token plan label screen_name : String) (page_count : Int)
    (from_date to_date : String) (language : Option String)
    (langs : List String)
    (hv : validateWrapper api oauth_token plan label screen_name page_count
        from_date to_date language = none)
    (hl : env.lookup = .ok langs)
    (hOk : LanguageOk language langs) :
    wrapper_premium_user_search env api oauth_token plan label screen_name
        page_count from_date to_date language = paginate env.pages page_count := by
  obtain ⟨q2, ha⟩ := applyLanguage_ok ("from:" ++ screen_name) language langs hOk
  unfold wrapper_premium_user_search
  simp only [hv, hl, ha]

theorem followLoop_zero (pages : Nat → Response α) (calls : Nat) (np : String)
    (tweets : List α) : followLoop pages 0 calls np tweets = (tweets, calls) :=
  rfl

theorem followLoop_succ_fail (pages : Nat → Response α) (fuel calls : Nat)
    (np : String) (tweets : List α) (h : (pages calls).status ≠ 200) :
    followLoop pages (fuel + 1) calls np tweets = (tweets, calls + 1) := by
  unfold followLoop
  rw [if_pos h]

theorem followLoop_succ_next (pages : Nat → Response α) (fuel calls : Nat)
    (np np2 : String) (tweets rs : List α)
    (h : pages calls = ⟨200, some rs, some np2⟩) :
    followLoop pages (fuel + 1) calls np tweets
      = followLoop pages fuel (calls + 1) np2 (tweets ++ rs) := by
  conv_lhs => rw [followLoop]
  rw [h]
  simp

theorem followLoop_succ_last (pages : Nat → Response α) (fuel calls : Nat)
    (np : String) (tweets rs : List α)
    (h : pages calls = ⟨200, some rs, none⟩) :
    followLoop pages (fuel + 1) calls np tweets = (tweets ++ rs, calls + 1) := by
  conv_lhs => rw [followLoop]
  rw [h]
  simp

/-- Every path through the pagination block (lines 106–169) has already made
the language lookup; its result always records `lookupCalled = true`. -/
theorem paginate_lookupCalled (pages : Nat → Response α) (page_count : Int) :
    (paginate pages page_count).lookupCalled = true := by
  unfold paginate
  dsimp only
  split
  · rfl
  · split
    · rfl
    · split
      · split <;> rfl
      · split <;> rfl

/-- Lines 115–121: a non-200 first page raises `ConnectionError` after exactly
one search POST. -/
theorem paginate_connectionError (pages : Nat → Response α) (page_count : Int)
    (h : (pages 0).status ≠ 200) :
    paginate pages page_count = ⟨.connectionError, true, 1⟩ := by
  unfold paginate
  rw [if_pos h]

/-- Lines 149–152 with 166–167: a 200 first page with non-empty results and a
continuation token, followed by a non-200 continuation, returns exactly the
first page after two search POSTs. -/
theorem paginate_graceful (pages : Nat → Response α) (page_count : Int)
    (rs : List α) (tk : String)
    (h0 : pages 0 = ⟨200, some rs, some tk⟩) (hne : rs ≠ [])
    (h1 : (pages 1).status ≠ 200) (hpc : 2 ≤ page_count) :
    paginate pages page_count = ⟨.ok rs, true, 2⟩ := by
  unfold paginate
  rw [h0]
  obtain ⟨k, hk⟩ : ∃ k, (page_count - 1).toNat = k + 1 :=
    ⟨(page_count - 1).toNat - 1, by omega⟩
  simp only [hk]
  rw [followLoop_succ_fail pages k 1 tk ([] ++ rs) h1]
  simp [List.length_pos, hne]

/-- Three successful pages, the third without a continuation token: the
aggregate is their concatenation and exactly three search POSTs are issued. -/
theorem paginate_three (pages : Nat → Response α) (rs0 rs1 rs2 : List α)
    (t0 t1 : String)
    (h0 : pages 0 = ⟨200, some rs0, some t0⟩)
    (h1 : pages 1 = ⟨200, some rs1, some t1⟩)
    (h2 : pages 2 = ⟨200, some rs2, none⟩)
    (hne : rs0 ++ rs1 ++ rs2 ≠ []) :
    paginate pages 3 = ⟨.ok (rs0 ++ rs1 ++ rs2), true, 3⟩ := by
  unfold paginate
  rw [h0]
  have hfuel : ((3 : Int) - 1).toNat = 2 := by decide
  simp only [hfuel]
  rw [followLoop_succ_next pages 1 1 t0 t1 ([] ++ rs0) rs1 h1]
  rw [followLoop_succ_last pages 0 2 t1 ([] ++ rs0 ++ rs1) rs2 h2]
  have hlen : (([] ++ rs0 ++ rs1) ++ rs2).length > 0 := by
    simp only [List.nil_append]
    exact List.length_pos.mpr hne
  dsimp only
  rw [if_pos hlen]
  simp

/-- Lines 130–134 and 166–169: once the first page had a results field, the
call either returns a non-empty list or raises `IndexError`. -/
theorem paginate_finalize (pages : Nat → Response α) (page_count : Int)
    (rs : List α) (nxt : Option String)
    (h0 : pages 0 = ⟨200, some rs, nxt⟩) :
    (∀ l, (paginate pages page_count).outcome = .ok l → l ≠ []) ∧
    ((∃ l, (paginate pages page_count).outcome = .ok l) ∨
      (paginate pages page_count).outcome = .indexError) := by
  unfold paginate
  rw [h0]
  dsimp only
  rw [if_neg (by simp)]
  cases nxt with
  | none =>
    dsimp only
    split
    · next h =>
      constructor
      · intro l hl
        cases hl
        exact List.length_pos.mp h
      · exact Or.inl ⟨[] ++ rs, rfl⟩
    · constructor
      · intro l hl
        cases hl
      · exact Or.inr rfl
  | some np =>
    dsimp only
    split
    · next h =>
      constructor
      · intro l hl
        cases hl
        exact List.length_pos.mp h
      · exact Or.inl ⟨_, rfl⟩
    · constructor
      · intro l hl
        cases hl
      · exact Or.inr rfl

/-- With a page budget of at most one, the continuation loop runs zero times:
exactly one search POST happens, and a structurally successful first page is
returned as-is (or `IndexError` if it was empty). -/
theorem paginate_single (pages : Nat → Response α) (page_count : Int)
    (hpc : page_count ≤ 1) :
    (paginate pages page_count).searchCalls = 1 ∧
    (∀ rs nxt, pages 0 = ⟨200, some rs, nxt⟩ →
      paginate pages page_count
        = ⟨if rs.isEmpty then .indexError else .ok rs, true, 1⟩) := by
  have hfuel : (page_count - 1).toNat = 0 := by omega
  constructor
  · unfold paginate
    dsimp only
    split
    · rfl
    · split
      · rfl
      · split
        · split <;> rfl
        · simp only [hfuel, followLoop_zero]
          split <;> rfl
  · intro rs nxt h0
    unfold paginate
    rw [h0]
    dsimp only
    rw [if_neg (by simp)]
    cases rs with
    | nil =>
      cases nxt with
      | none => simp
      | some np => simp [hfuel, followLoop_zero]
    | cons a rest =>
      cases nxt with
      | none => simp
      | some np => simp [hfuel, followLoop_zero]

/-- Peeling step for the validator's if-chain: every then-branch of the chain
returns `some`, so rejection of the tail lifts through each check. -/
theorem isSome_ite_some {c : Prop} [Decidable c] (x : String) (t : Option String)
    (h : t.isSome = true) : (if c then some x else t).isSome = true := by
  by_cases hc : c
  · rw [if_pos hc]
    rfl
  · rw [if_neg hc]
    exact h

/-- If both dates parse but the start instant is not strictly earlier than the
end instant, the validation chain of `search_tweets` rejects (some check in
the chain fails; if everything before the date comparison passed, line 85
fires). -/
theorem validateSearch_dates (api : Bool) (oauth_token plan label query : String)
    (page_count : Int) (from_date to_date : String) (language : Option String)
    (s e : DateTime) (hf : strptime12 from_date = some s)
    (ht : strptime12 to_date = some e) (hge : e.encode ≤ s.encode) :
    (validateSearch api oauth_token plan label query page_count
      from_date to_date language).isSome = true := by
  unfold validateSearch
  apply isSome_ite_some
  apply isSome_ite_some
  apply isSome_ite_some
  apply isSome_ite_some
  apply isSome_ite_some
  apply isSome_ite_some
  apply isSome_ite_some
  apply isSome_ite_some
  apply isSome_ite_some
  apply isSome_ite_some
  rw [hf, ht]
  dsimp only
  rw [if_pos hge]
  rfl

/-- Same fact for the validation chain of `wrapper_premium_user_search`
(line 245). -/
theorem validateWrapper_dates (api : Bool)
    (oauth_token plan label screen_name : String) (page_count : Int)
    (from_date to_date : String) (language : Option String)
    (s e : DateTime) (hf : strptime12 from_date = some s)
    (ht : strptime12 to_date = some e) (hge : e.encode ≤ s.encode) :
    (validateWrapper api oauth_token plan label screen_name page_count
      from_date to_date language).isSome = true := by
  unfold validateWrapper
  apply isSome_ite_some
  apply isSome_ite_some
  apply isSome_ite_some
  apply isSome_ite_some
  apply isSome_ite_some
  apply isSome_ite_some
  apply isSome_ite_some
  apply isSome_ite_some
  apply isSome_ite_some
  apply isSome_ite_some
  rw [hf, ht]
  dsimp only
  rw [if_pos hge]
  rfl

/-- `page_count = 0` is falsy in Python, so line 60 rejects it (unless an
earlier check already rejected — either way validation fails). -/
theorem validateSearch_pc_zero (api : Bool)
    (oauth_token plan label query : String) (from_date to_date : String)
    (language : Option String) :
    (validateSearch api oauth_token plan label query 0 from_date to_date
      language).isSome = true := by
  unfold validateSearch
  apply isSome_ite_some
  apply isSome_ite_some
  apply isSome_ite_some
  apply isSome_ite_some
  apply isSome_ite_some
  rw [if_pos rfl]
  rfl

/-- Same fact for `wrapper_premium_user_search` (line 220). -/
theorem validateWrapper_pc_zero (api : Bool)
    (oauth_token plan label screen_name : String) (from_date to_date : String)
    (language : Option String) :
    (validateWrapper api oauth_token plan label screen_name 0 from_date to_date
      language).isSome = true := by
  unfold validateWrapper
  apply isSome_ite_some
  apply isSome_ite_some
  apply isSome_ite_some
  apply isSome_ite_some
  apply isSome_ite_some
  rw [if_pos rfl]
  rfl

/-- The validation chain inspects `page_count` only through the falsy test
`not page_count`, so any nonzero integer validates like `1`: negative page
budgets are accepted. -/
theorem validateSearch_pc_irrelevant (api : Bool)
    (oauth_token plan label query : String) (page_count : Int)
    (from_date to_date : String) (language : Option String)
    (hpc : page_count ≠ 0) :
    validateSearch api oauth_token plan label query page_count
        from_date to_date language
      = validateSearch api oauth_token plan label query 1
        from_date to_date language := by
  unfold validateSearch
  rw [if_neg hpc, if_neg (by decide : ¬(1 : Int) = 0)]

/-! ### Claims -/

/-- C1, counterexample.  The claim says that with `language = None` no
language-lookup call is made, but `available_languages(api)` is called
unconditionally at lines 95–98 resp. 257–260, before the `if language:`
test: on fully valid inputs with no language supplied, both entry points
record a lookup call. -/
theorem claim1_counterexample :
    (search_tweets envSimple true "t" "30day" "dev" "q" 1 dA dB
      none).lookupCalled = true ∧
    (wrapper_premium_user_search envSimple true "t" "30day" "dev" "alice" 1
      dA dB none).lookupCalled = true := by
  decide

/-- C1, amended.  For every call to `search_tweets` or
`wrapper_premium_user_search` that passes input validation with no language
supplied, the language-lookup call to `available_languages` IS made (the
lookup is unconditional); only the membership check and the query
modification are skipped when `language` is `None`. -/
theorem claim1_theorem (env : Env α) (api : Bool)
    (oauth_token plan label query screen_name : String) (page_count : Int)
    (from_date to_date : String)
    (hs : validateSearch api oauth_token plan label query page_count
      from_date to_date none = none)
    (hw : validateWrapper api oauth_token plan label screen_name page_count
      from_date to_date none = none) :
    (search_tweets env api oauth_token plan label query page_count
      from_date to_date none).lookupCalled = true ∧
    (wrapper_premium_user_search env api oauth_token plan label screen_name
      page_count from_date to_date none).lookupCalled = true := by
  constructor
  · unfold search_tweets
    rw [hs]
    cases env.lookup with
    | error e => rfl
    | ok langs => exact paginate_lookupCalled env.pages page_count
  · unfold wrapper_premium_user_search
    rw [hw]
    cases env.lookup with
    | error e => rfl
    | ok langs => exact paginate_lookupCalled env.pages page_count

/-- C1, witness for the amended theorem at concrete inputs. -/
theorem claim1_witness :
    (search_tweets envSimple true "t" "30day" "dev" "q" 1 dA dB
      none).lookupCalled = true ∧
    (wrapper_premium_user_search envSimple true "t" "30day" "dev" "alice" 1
      dA dB none).lookupCalled = true :=
  claim1_theorem envSimple true "t" "30day" "dev" "q" "alice" 1 dA dB
    (by decide) (by decide)

/-- C2, counterexample.  With `screen_name = ""` the wrapper rejects at its
validation chain (`ValueError`, no network), while `search_tweets` with the
claimed query `'from:' + '' = "from:"` passes validation and — under a
server answering the first page — returns a list.  So the two calls do not
behave identically for every argument tuple. -/
theorem claim2_counterexample :
    wrapper_premium_user_search envFrom true "t" "30day" "dev" "" 1 dA dB none
      = ⟨.valueError "screen_name must be a `str`", false, 0⟩ ∧
    search_tweets envFrom true "t" "30day" "dev" ("from:" ++ "") 1 dA dB none
      = ⟨.ok [7], true, 1⟩ := by
  decide

/-- C2, amended.  For every argument tuple with a non-empty `screen_name`,
`wrapper_premium_user_search` behaves identically (same full result,
including the network trace) to `search_tweets` called with the query
`'from:' + screen_name`, under identical oracles. -/
theorem claim2_theorem (env : Env α) (api : Bool)
    (oauth_token plan label screen_name : String) (page_count : Int)
    (from_date to_date : String) (language : Option String)
    (hsn : screen_name ≠ "") :
    wrapper_premium_user_search env api oauth_token plan label screen_name
        page_count from_date to_date language
      = search_tweets env api oauth_token plan label ("from:" ++ screen_name)
        page_count from_date to_date language := by
  unfold wrapper_premium_user_search search_tweets
  rw [validateWrapper_eq_validateSearch api oauth_token plan label screen_name
    page_count from_date to_date language hsn]

/-- C2, witness for the amended theorem at concrete inputs. -/
theorem claim2_witness :
    wrapper_premium_user_search envFrom true "t" "30day" "dev" "alice" 2
        dA dB none
      = search_tweets envFrom true "t" "30day" "dev" ("from:" ++ "alice") 2
        dA dB none :=
  claim2_theorem envFrom true "t" "30day" "dev" "alice" 2 dA dB none
    (by decide)

/-- C3, confirmed.  If validation and the language filter pass, the first
page returns 200 with a non-empty results array and a continuation token,
and the first continuation request returns a non-success status, then the
call returns exactly the first page's items in order (no error), after
exactly two search POSTs. -/
theorem claim3_theorem (env : Env α) (api : Bool)
    (oauth_token plan label query : String) (page_count : Int)
    (from_date to_date : String) (language : Option String)
    (langs : List String) (rs : List α) (tk : String)
    (hv : validateSearch api oauth_token plan label query page_count
      from_date to_date language = none)
    (hl : env.lookup = .ok langs) (hOk : LanguageOk language langs)
    (h0 : env.pages 0 = ⟨200, some rs, some tk⟩) (hne : rs ≠ [])
    (h1 : (env.pages 1).status ≠ 200) (hpc : 2 ≤ page_count) :
    search_tweets env api oauth_token plan label query page_count
      from_date to_date language = ⟨.ok rs, true, 2⟩ := by
  rw [search_tweets_eq_paginate env api oauth_token plan label query
    page_count from_date to_date language langs hv hl hOk]
  exact paginate_graceful env.pages page_count rs tk h0 hne h1 hpc

/-- C3, witness at concrete inputs. -/
theorem claim3_witness :
    search_tweets envGrace true "t" "30day" "dev" "q" 4 dA dB none
      = ⟨.ok [5, 6], true, 2⟩ :=
  claim3_theorem envGrace true "t" "30day" "dev" "q" 4 dA dB none
    [] [5, 6] "tok" (by decide) rfl (by decide) rfl (by decide) (by decide)
    (by decide)

/-- C4, confirmed.  If validation and the language filter pass and the first
page's HTTP request returns a non-200 status, both entry points raise
`ConnectionError` after exactly one search POST (no further page
requests). -/
theorem claim4_theorem (env : Env α) (api : Bool)
    (oauth_token plan label query screen_name : String) (page_count : Int)
    (from_date to_date : String) (language : Option String)
    (langs : List String)
    (hv : validateSearch api oauth_token plan label query page_count
      from_date to_date language = none)
    (hw : validateWrapper api oauth_token plan label screen_name page_count
      from_date to_date language = none)
    (hl : env.lookup = .ok langs) (hOk : LanguageOk language langs)
    (hs : (env.pages 0).status ≠ 200) :
    search_tweets env api oauth_token plan label query page_count
      from_date to_date language = ⟨.connectionError, true, 1⟩ ∧
    wrapper_premium_user_search env api oauth_token plan label screen_name
      page_count from_date to_date language = ⟨.connectionError, true, 1⟩ := by
  constructor
  · rw [search_tweets_eq_paginate env api oauth_token plan label query
      page_count from_date to_date language langs hv hl hOk]
    exact paginate_connectionError env.pages page_count hs
  · rw [wrapper_eq_paginate env api oauth_token plan label screen_name
      page_count from_date to_date language langs hw hl hOk]
    exact paginate_connectionError env.pages page_count hs

/-- C4, witness at concrete inputs. -/
theorem claim4_witness :
    search_tweets envDown true "t" "30day" "dev" "q" 5 dA dB none
      = ⟨.connectionError, true, 1⟩ ∧
    wrapper_premium_user_search envDown true "t" "30day" "dev" "alice" 5
      dA dB none = ⟨.connectionError, true, 1⟩ :=
  claim4_theorem envDown true "t" "30day" "dev" "q" "alice" 5 dA dB none
    [] (by decide) (by decide) rfl (by decide) (by decide)

/-- C5, confirmed.  If both date strings parse under `%Y%m%d%H%M` but the
parsed start instant is not strictly earlier than the parsed end instant,
both entry points raise `ValueError` with no lookup call and no search
POST (zero HTTP calls of any kind). -/
theorem claim5_theorem (env : Env α) (api : Bool)
    (oauth_token plan label query screen_name : String) (page_count : Int)
    (from_date to_date : String) (language : Option String)
    (s e : DateTime) (hf : strptime12 from_date = some s)
    (ht : strptime12 to_date = some e) (hge : e.encode ≤ s.encode) :
    (∃ m, search_tweets env api oauth_token plan label query page_count
      from_date to_date language = ⟨.valueError m, false, 0⟩) ∧
    (∃ m, wrapper_premium_user_search env api oauth_token plan label
      screen_name page_count from_date to_date language
        = ⟨.valueError m, false, 0⟩) := by
  obtain ⟨m1, hm1⟩ := Option.isSome_iff_exists.mp
    (validateSearch_dates api oauth_token plan label query page_count
      from_date to_date language s e hf ht hge)
  obtain ⟨m2, hm2⟩ := Option.isSome_iff_exists.mp
    (validateWrapper_dates api oauth_token plan label screen_name page_count
      from_date to_date language s e hf ht hge)
  refine ⟨⟨m1, ?_⟩, ⟨m2, ?_⟩⟩
  · unfold search_tweets
    rw [hm1]
  · unfold wrapper_premium_user_search
    rw [hm2]

/-- C5, witness at concrete inputs (equal start and end instants). -/
theorem claim5_witness :
    (∃ m, search_tweets envSimple true "t" "30day" "dev" "q" 1 dA dA none
      = ⟨.valueError m, false, 0⟩) ∧
    (∃ m, wrapper_premium_user_search envSimple true "t" "30day" "dev"
      "alice" 1 dA dA none = ⟨.valueError m, false, 0⟩) :=
  claim5_theorem envSimple true "t" "30day" "dev" "q" "alice" 1 dA dA none
    ⟨2018, 1, 1, 0, 0⟩ ⟨2018, 1, 1, 0, 0⟩ (by decide) (by decide) (by decide)

/-- C6, counterexample.  The claim says the validator rejects every
non-positive `page_count`, but `if not page_count` only rejects the falsy
value `0`: with `page_count = -1` both entry points pass validation, issue a
search POST, and return normally. -/
theorem claim6_counterexample :
    search_tweets envSimple true "t" "30day" "dev" "q" (-1) dA dB none
      = ⟨.ok [1], true, 1⟩ ∧
    wrapper_premium_user_search envSimple true "t" "30day" "dev" "alice" (-1)
      dA dB none = ⟨.ok [1], true, 1⟩ := by
  decide

/-- C6, amended.  The validator rejects `page_count = 0` (and, in Python,
non-int values) with a `ValueError` before any network call; every nonzero
integer — negative values included — passes the `page_count` check, the
validation outcome being independent of which nonzero value is given. -/
theorem claim6_theorem (env : Env α) (api : Bool)
    (oauth_token plan label query screen_name : String)
    (from_date to_date : String) (language : Option String) :
    (∃ m, search_tweets env api oauth_token plan label query 0
      from_date to_date language = ⟨.valueError m, false, 0⟩) ∧
    (∃ m, wrapper_premium_user_search env api oauth_token plan label
      screen_name 0 from_date to_date language = ⟨.valueError m, false, 0⟩) ∧
    (∀ pc : Int, pc ≠ 0 →
      validateSearch api oauth_token plan label query pc from_date to_date
          language
        = validateSearch api oauth_token plan label query 1 from_date to_date
          language) := by
  obtain ⟨m1, hm1⟩ := Option.isSome_iff_exists.mp
    (validateSearch_pc_zero api oauth_token plan label query from_date
      to_date language)
  obtain ⟨m2, hm2⟩ := Option.isSome_iff_exists.mp
    (validateWrapper_pc_zero api oauth_token plan label screen_name from_date
      to_date language)
  refine ⟨⟨m1, ?_⟩, ⟨m2, ?_⟩, ?_⟩
  · unfold search_tweets
    rw [hm1]
  · unfold wrapper_premium_user_search
    rw [hm2]
  · intro pc hpc
    exact validateSearch_pc_irrelevant api oauth_token plan label query pc
      from_date to_date language hpc

/-- C6, witness: the amended theorem at concrete inputs, with the
nonzero-acceptance conjunct instantiated at the negative value `-7`. -/
theorem claim6_witness :
    (∃ m, search_tweets envSimple true "t" "30day" "dev" "q" 0 dA dB none
      = ⟨.valueError m, false, 0⟩) ∧
    validateSearch true "t" "30day" "dev" "q" (-7) dA dB none
      = validateSearch true "t" "30day" "dev" "q" 1 dA dB none :=
  ⟨(claim6_theorem envSimple true "t" "30day" "dev" "q" "alice" dA dB
      none).1,
   (claim6_theorem envSimple true "t" "30day" "dev" "q" "alice" dA dB
      none).2.2 (-7) (by decide)⟩

/-- C7, confirmed.  Whenever the call reaches the finalization point (first
page 200 with a results field present, after validation and the language
filter passed), the outcome is either a non-empty returned list or the
`IndexError` of lines 130–134/166–169: an empty aggregate is never
returned, and nothing besides those two outcomes happens. -/
theorem claim7_theorem (env : Env α) (api : Bool)
    (oauth_token plan label query : String) (page_count : Int)
    (from_date to_date : String) (language : Option String)
    (langs : List String) (rs : List α) (nxt : Option String)
    (hv : validateSearch api oauth_token plan label query page_count
      from_date to_date language = none)
    (hl : env.lookup = .ok langs) (hOk : LanguageOk language langs)
    (h0 : env.pages 0 = ⟨200, some rs, nxt⟩) :
    (∀ l, (search_tweets env api oauth_token plan label query page_count
      from_date to_date language).outcome = .ok l → l ≠ []) ∧
    ((∃ l, (search_tweets env api oauth_token plan label query page_count
      from_date to_date language).outcome = .ok l) ∨
      (search_tweets env api oauth_token plan label query page_count
        from_date to_date language).outcome = .indexError) := by
  rw [search_tweets_eq_paginate env api oauth_token plan label query
    page_count from_date to_date language langs hv hl hOk]
  exact paginate_finalize env.pages page_count rs nxt h0

/-- C7, witness: at concrete inputs the returned list cannot be the empty
list, by the first component of the claim's theorem. -/
theorem claim7_witness :
    (search_tweets envSimple true "t" "30day" "dev" "q" 1 dA dB
      none).outcome ≠ Outcome.ok ([] : List Nat) := fun h =>
  (claim7_theorem envSimple true "t" "30day" "dev" "q" 1 dA dB none
    ["en", "es"] [1] none (by decide) rfl (by decide) rfl).1 [] h rfl

set_option maxRecDepth 4000 in
/-- C8, counterexample.  With pages of 100 items each as the claim fixes
them, the call does return the 300 items in fetch order — but the claimed
"exactly 3 HTTP calls" fails under the claim set's own counting of HTTP
calls (which, per C5, includes the language lookup): the trace records the
unconditional lookup call (`lookupCalled = true`) in addition to the 3
search POSTs, so 4 HTTP calls occur in total. -/
theorem claim8_counterexample :
    search_tweets envPages3 true "t" "30day" "dev" "q" 3 dA dB none
      = ⟨.ok (List.replicate 100 0 ++ List.replicate 100 1
          ++ List.replicate 100 2), true, 3⟩ := by
  decide

/-- C8, amended.  For `page_count = 3`, when pages one and two each return
100 items plus a continuation token and page three returns 100 items with
no token, the call returns exactly the 300 items, pages concatenated in
fetch order, and exactly 3 search HTTP calls are made — in addition to the
one language-lookup call, for 4 HTTP calls in total. -/
theorem claim8_theorem (env : Env α) (api : Bool)
    (oauth_token plan label query : String) (from_date to_date : String)
    (language : Option String) (langs : List String)
    (rs0 rs1 rs2 : List α) (t0 t1 : String)
    (hv : validateSearch api oauth_token plan label query 3
      from_date to_date language = none)
    (hl : env.lookup = .ok langs) (hOk : LanguageOk language langs)
    (h0 : env.pages 0 = ⟨200, some rs0, some t0⟩)
    (h1 : env.pages 1 = ⟨200, some rs1, some t1⟩)
    (h2 : env.pages 2 = ⟨200, some rs2, none⟩)
    (hl0 : rs0.length = 100) (hl1 : rs1.length = 100)
    (hl2 : rs2.length = 100) :
    search_tweets env api oauth_token plan label query 3 from_date to_date
      language = ⟨.ok (rs0 ++ rs1 ++ rs2), true, 3⟩ ∧
    (rs0 ++ rs1 ++ rs2).length = 300 := by
  have hne : rs0 ++ rs1 ++ rs2 ≠ [] := by
    intro h
    have hlen := congrArg List.length h
    simp [hl0, hl1, hl2] at hlen
  constructor
  · rw [search_tweets_eq_paginate env api oauth_token plan label query 3
      from_date to_date language langs hv hl hOk]
    exact paginate_three env.pages rs0 rs1 rs2 t0 t1 h0 h1 h2 hne
  · simp [hl0, hl1, hl2]

/-- C8, witness for the amended theorem at concrete inputs. -/
theorem claim8_witness :
    search_tweets envPages3 true "t" "30day" "dev" "q" 3 dA dB none
      = ⟨.ok (List.replicate 100 0 ++ List.replicate 100 1
          ++ List.replicate 100 2), true, 3⟩ ∧
    (List.replicate 100 (0 : Nat) ++ List.replicate 100 1
      ++ List.replicate 100 2).length = 300 :=
  claim8_theorem envPages3 true "t" "30day" "dev" "q" dA dB none []
    (List.replicate 100 0) (List.replicate 100 1) (List.replicate 100 2)
    "t0" "t1" (by decide) rfl (by decide) rfl rfl rfl (by simp) (by simp)
    (by simp)

/-- C9, confirmed.  If a (truthy) language code is supplied, the lookup
succeeds, and the code is not in the fetched list, both entry points raise
`ValueError('the introduced language does not exist.')` with the lookup
call recorded and zero search POSTs. -/
theorem claim9_theorem (env : Env α) (api : Bool)
    (oauth_token plan label query screen_name : String) (page_count : Int)
    (from_date to_date : String) (language : Option String)
    (langs : List String) (l : String)
    (hv : validateSearch api oauth_token plan label query page_count
      from_date to_date language = none)
    (hw : validateWrapper api oauth_token plan label screen_name page_count
      from_date to_date language = none)
    (hl : env.lookup = .ok langs) (hlang : language = some l)
    (hne : l ≠ "") (hmem : l ∉ langs) :
    search_tweets env api oauth_token plan label query page_count
        from_date to_date language
      = ⟨.valueError "the introduced language does not exist.", true, 0⟩ ∧
    wrapper_premium_user_search env api oauth_token plan label screen_name
        page_count from_date to_date language
      = ⟨.valueError "the introduced language does not exist.", true, 0⟩ := by
  have ha : ∀ q : String, applyLanguage q language langs
      = Except.error "the introduced language does not exist." := by
    intro q
    unfold applyLanguage
    subst hlang
    simp [langTruthy, hne, hmem]
  constructor
  · unfold search_tweets
    simp only [hv, hl, ha]
  · unfold wrapper_premium_user_search
    simp only [hw, hl, ha]

/-- C9, witness at concrete inputs (`"fr"` not among the fetched
languages). -/
theorem claim9_witness :
    search_tweets envSimple true "t" "30day" "dev" "q" 1 dA dB (some "fr")
      = ⟨.valueError "the introduced language does not exist.", true, 0⟩ ∧
    wrapper_premium_user_search envSimple true "t" "30day" "dev" "alice" 1
        dA dB (some "fr")
      = ⟨.valueError "the introduced language does not exist.", true, 0⟩ :=
  claim9_theorem envSimple true "t" "30day" "dev" "q" "alice" 1 dA dB
    (some "fr") ["en", "es"] "fr" (by decide) (by decide) rfl rfl
    (by decide) (by decide)

/-- C10, confirmed.  `page_count = 0` is rejected by validation; every other
integer is accepted (the validator's outcome is independent of the nonzero
value); and for an accepted `page_count ≤ 1` the continuation loop runs
zero iterations, so at most one search POST is issued and a structurally
successful first page is returned as-is (or `IndexError` if it was
empty). -/
theorem claim10_theorem (env : Env α) (api : Bool)
    (oauth_token plan label query : String) (from_date to_date : String)
    (language : Option String) (page_count : Int)
    (hpc0 : page_count ≠ 0) (hpc1 : page_count ≤ 1) :
    (validateSearch api oauth_token plan label query 0 from_date to_date
      language).isSome = true ∧
    validateSearch api oauth_token plan label query page_count from_date
        to_date language
      = validateSearch api oauth_token plan label query 1 from_date to_date
        language ∧
    (search_tweets env api oauth_token plan label query page_count from_date
      to_date language).searchCalls ≤ 1 ∧
    (∀ langs rs nxt,
      validateSearch api oauth_token plan label query page_count from_date
        to_date language = none →
      env.lookup = .ok langs → LanguageOk language langs →
      env.pages 0 = ⟨200, some rs, nxt⟩ →
      search_tweets env api oauth_token plan label query page_count from_date
          to_date language
        = ⟨if rs.isEmpty then .indexError else .ok rs, true, 1⟩) := by
  refine ⟨validateSearch_pc_zero api oauth_token plan label query from_date
      to_date language,
    validateSearch_pc_irrelevant api oauth_token plan label query page_count
      from_date to_date language hpc0, ?_, ?_⟩
  · cases hval : validateSearch api oauth_token plan label query page_count
        from_date to_date language with
    | some m =>
      unfold search_tweets
      rw [hval]
      exact Nat.zero_le 1
    | none =>
      unfold search_tweets
      rw [hval]
      cases env.lookup with
      | error e => exact Nat.zero_le 1
      | ok langs =>
        dsimp only
        cases applyLanguage query language langs with
        | error m => exact Nat.zero_le 1
        | ok q2 =>
          show (paginate env.pages page_count).searchCalls ≤ 1
          rw [(paginate_single env.pages page_count hpc1).1]
  · intro langs rs nxt hv hl hOk h0
    rw [search_tweets_eq_paginate env api oauth_token plan label query
      page_count from_date to_date language langs hv hl hOk]
    exact (paginate_single env.pages page_count hpc1).2 rs nxt h0

/-- C10, witness: the theorem at the accepted negative budget `-5`, where
exactly one search POST happens and the first page is returned. -/
theorem claim10_witness :
    (search_tweets envSimple true "t" "30day" "dev" "q" (-5) dA dB
      none).searchCalls ≤ 1 ∧
    search_tweets envSimple true "t" "30day" "dev" "q" (-5) dA dB none
      = ⟨if ([1] : List Nat).isEmpty then .indexError else .ok [1], true,
          1⟩ :=
  ⟨(claim10_theorem envSimple true "t" "30day" "dev" "q" dA dB none (-5)
      (by decide) (by decide)).2.2.1,
   (claim10_theorem envSimple true "t" "30day" "dev" "q" dA dB none (-5)
      (by decide) (by decide)).2.2.2 ["en", "es"] [1] none (by decide) rfl
      (by decide) rfl⟩

end Twipper
